import Mathlib

/-!
Shallow embedding of the two scripts of this repository,
`create-agent.py` (the Agent Provisioner) and `run-agent.py` (the
Conversation Runner), together with the local JSON registry file
`.agents.json` that both share.

Modelling conventions:
* Python strings are Lean `String`s; Python `None` becomes `none`.
* A Python `dict[str, str]` is an insertion-ordered association list
  `List (String × String)` (a real dict additionally has no duplicate
  keys; theorems that need that take it as a hypothesis).
* The registry file on disk is modelled at the level of its parse
  result (`RegistryFile`): absent, present-but-unparsable, or a parsed
  JSON object.  The byte-level `json.dumps` output is modelled
  separately by `dumps` below, following the documented behaviour of
  Python's `json` module with `indent=2, sort_keys=True` and the
  default `ensure_ascii=True`.
* `raise SystemExit msg` becomes `Except.error msg`; a function that
  returns `Except.error` models a fatal process exit at that point, so
  everything the function would only produce on the `ok` path (remote
  requests, the interactive session) provably does not happen.
-/

namespace FoundryAgent

/-! ### Python string primitives used by the scripts -/

/-- The character class removed by Python `str.strip()` with no
argument: the ASCII whitespace characters. -/
def isPySpace (c : Char) : Bool :=
  c = ' ' || c = '\t' || c = '\n' || c = '\x0d' || c = '\x0b' || c = '\x0c'

/-- Python `str.strip()` on the character list: drop the maximal run of
whitespace from the left, then from the right. -/
def charStrip (l : List Char) : List Char :=
  (l.dropWhile isPySpace).rdropWhile isPySpace

/-- Python `str.strip()`. -/
def pyStrip (s : String) : String :=
  ⟨charStrip s.data⟩

/-- Python `str.lower()` (the inputs the scripts compare are ASCII, for
which per-character lowering is exact). -/
def pyLower (s : String) : String :=
  ⟨s.data.map Char.toLower⟩

/-- Python truthiness of an optional string (`None` and `""` are
falsy). -/
def pyTruthy : Option String → Bool
  | none => false
  | some s => !(s == "")

/-- Python `a or b` on optional strings: `b` when `a` is falsy. -/
def pyOrOpt (a b : Option String) : Option String :=
  if pyTruthy a then a else b

/-! ### The Agent Registry (`.agents.json`) -/

/-- A Python `dict[str, str]` as an insertion-ordered association
list. -/
abbrev Store := List (String × String)

/-- Python `store[k] = v`: replace the value at an existing key in
place, otherwise append the new pair at the end. -/
def dictSet (store : Store) (k v : String) : Store :=
  match store with
  | [] => [(k, v)]
  | (k', v') :: rest => if k' == k then (k, v) :: rest else (k', v') :: dictSet rest k v

/-- The state of the registry file on disk, at the level of its parse
result: missing, present but not valid JSON (the carried string is the
exception text), or a parsed JSON object. -/
inductive RegistryFile
  | absent
  | unparsable (exc : String)
  | parsed (store : Store)
deriving DecidableEq

/-- `load_store` of `create-agent.py` (lines 35–41): empty mapping when
the file is absent or fails to parse. -/
def load_store : RegistryFile → Store
  | .absent => []
  | .unparsable _ => []
  | .parsed store => store

/-- `load_store` of `run-agent.py` (lines 34–40): fatal (`SystemExit`)
when the file is absent or fails to parse. -/
def load_store_runner : RegistryFile → Except String Store
  | .absent => .error "Agent store .agents.json not found. Run create-agent.py first."
  | .unparsable exc => .error ("Failed to read .agents.json: " ++ exc)
  | .parsed store => .ok store

/-! #### Serialization: `json.dumps(store, indent=2, sort_keys=True)` -/

/-- The `sort_keys=True` ordering: compare entries by key. -/
def keyLe (a b : String × String) : Prop := a.1 ≤ b.1

/-- Strict version of `keyLe`, used to see that sorting a
duplicate-free object is deterministic. -/
def keyLt (a b : String × String) : Prop := a.1 < b.1

instance : IsTotal (String × String) keyLe := ⟨fun a b => le_total a.1 b.1⟩

instance : IsTrans (String × String) keyLe := ⟨fun _ _ _ h h' => le_trans h h'⟩

instance : IsAntisymm (String × String) keyLt :=
  ⟨fun _ _ h h' => absurd h' (lt_asymm h)⟩

instance : DecidableRel keyLe := fun a b => inferInstanceAs (Decidable (a.1 ≤ b.1))

/-- The entry order `json.dumps(..., sort_keys=True)` serializes in. -/
def sortPairs (store : Store) : Store :=
  List.insertionSort keyLe store

/-- Lower-case hex digit, as emitted by `json.dumps` unicode escapes. -/
def hexDigit (n : Nat) : Char :=
  if n < 10 then Char.ofNat (48 + n) else Char.ofNat (87 + n)

/-- A `\uXXXX` escape for a code unit. -/
def uEscape (n : Nat) : String :=
  "\\u" ++ ⟨[hexDigit (n / 4096 % 16), hexDigit (n / 256 % 16), hexDigit (n / 16 % 16), hexDigit (n % 16)]⟩

/-- How `json.dumps` (default `ensure_ascii=True`) renders one character
inside a JSON string literal. -/
def escapeChar (c : Char) : String :=
  if c = '"' then "\\\""
  else if c = '\\' then "\\\\"
  else if c = '\n' then "\\n"
  else if c = '\x0d' then "\\r"
  else if c = '\t' then "\\t"
  else if c = '\x08' then "\\b"
  else if c = '\x0c' then "\\f"
  else if c.toNat < 32 then uEscape c.toNat
  else if c.toNat < 127 then String.singleton c
  else if c.toNat < 65536 then uEscape c.toNat
  else uEscape (55296 + (c.toNat - 65536) / 1024) ++ uEscape (56320 + (c.toNat - 65536) % 1024)

/-- A JSON string literal. -/
def jsonQuote (s : String) : String :=
  "\"" ++ String.join (s.data.map escapeChar) ++ "\""

/-- One entry line of the dumped object: with `indent=2` every entry is
indented by two spaces, and the key separator is `": "`. -/
def dumpsEntry (p : String × String) : String :=
  "  " ++ jsonQuote p.1 ++ ": " ++ jsonQuote p.2

/-- `json.dumps(store, indent=2, sort_keys=True)`. -/
def dumps (store : Store) : String :=
  match sortPairs store with
  | [] => "\x7b\x7d"
  | ps => "\x7b\n" ++ String.intercalate ",\n" (ps.map dumpsEntry) ++ "\n\x7d"

/-- `save_store` (line 44–45 of `create-agent.py`): the registry file
after writing `dumps store`.  Reading the written text back with
`json.loads` (the library round-trip) yields the object with its keys
in the serialized, i.e. sorted, order. -/
def fileAfterSave (store : Store) : RegistryFile :=
  .parsed (sortPairs store)

/-- Lines 92–94 of `create-agent.py`: the mapping the Provisioner hands
to `save_store` after a successful creation returned `id`. -/
def storeAgent (file : RegistryFile) (name id : String) : Store :=
  dictSet (load_store file) name id

/-! ### The Agent Provisioner (`create-agent.py`, `main`) -/

/-- The fixed instructional prompt of `create-agent.py` lines 85–88
(two adjacent Python string literals, concatenated). -/
def agentInstructions : String :=
  "You are a helpful agent that can use MCP tools to assist users. " ++
    "Use the available MCP tools to answer questions and perform tasks."

/-- The command-line arguments of the Provisioner after `argparse`
default resolution for the MCP pair (`--mcp-url`, `--mcp-label`). -/
structure CreateArgs where
  name : String
  model : Option String
  mcpUrl : String
  mcpLabel : String
deriving DecidableEq

/-- The environment variables the Provisioner's `main` reads. -/
structure CreateEnv where
  modelDeploymentName : Option String
  projectEndpoint : Option String
deriving DecidableEq

/-- The `argparse` default for `--mcp-url`:
`os.environ.get("MCP_SERVER_URL", <literal>)` when the flag is absent. -/
def resolveMcpUrl (flag : Option String) (env : Option String) : String :=
  flag.getD (env.getD "https://gitmcp.io/Azure/azure-rest-api-specs")

/-- The `argparse` default for `--mcp-label`. -/
def resolveMcpLabel (flag : Option String) (env : Option String) : String :=
  flag.getD (env.getD "github")

/-- The MCP tool descriptor (`McpTool(server_label=..., server_url=...)`)
whose `.definitions` are passed to agent creation; the expansion into
tool definitions happens inside the external SDK, so the request record
carries the descriptor itself. -/
structure McpToolDescriptor where
  serverLabel : String
  serverUrl : String
deriving DecidableEq

/-- The remote `create_agent` request built at lines 82–90 of
`create-agent.py`. -/
structure CreateRequest where
  model : String
  name : String
  instructions : String
  mcpTool : McpToolDescriptor
deriving DecidableEq

/-- `main` of `create-agent.py` (lines 57–96), with the external world
made explicit: `returnedId` is the identifier the remote service
answers with, `file` the registry file found on disk.  The two
configuration checks (lines 63–69) run before the client is even
constructed, so on the `error` path no remote request exists; on the
`ok` path the result is the request that is sent and the mapping that
is written back to the registry. -/
def createAgentMain (args : CreateArgs) (env : CreateEnv) (returnedId : String)
    (file : RegistryFile) : Except String (CreateRequest × Store) :=
  let model := pyOrOpt args.model env.modelDeploymentName
  if !pyTruthy model then
    .error "Model deployment name must be provided via --model or MODEL_DEPLOYMENT_NAME env var"
  else if !pyTruthy env.projectEndpoint then
    .error "PROJECT_ENDPOINT env var is required"
  else
    .ok ({ model := model.getD ""
           name := args.name
           instructions := agentInstructions
           mcpTool := { serverLabel := args.mcpLabel, serverUrl := args.mcpUrl } },
         storeAgent file args.name returnedId)

/-! ### The Conversation Runner (`run-agent.py`) -/

/-- The run-status enumeration (`RunStatus` of the SDK). -/
inductive RunStatus
  | queued
  | inProgress
  | requiresAction
  | cancelling
  | cancelled
  | failed
  | completed
  | expired
deriving DecidableEq

/-- The non-terminal statuses polled at line 107. -/
def pollSet : List RunStatus := [.queued, .inProgress, .requiresAction]

/-- A pending tool call inside a `SubmitToolApprovalAction`: either a
`RequiredMcpToolCall` (carrying its id) or a call of any other kind. -/
inductive PendingToolCall
  | mcp (id : String)
  | otherKind (id : String)
deriving DecidableEq

/-- A `ToolApproval(tool_call_id=..., approve=...)` record. -/
structure ToolApproval where
  toolCallId : String
  approve : Bool
deriving DecidableEq

/-- The `required_action` attached to a run: a
`SubmitToolApprovalAction` with its tool calls, or an action of some
other type (the `isinstance` check at line 112 fails). -/
inductive RequiredAction
  | submitToolApproval (toolCalls : List PendingToolCall)
  | otherAction
deriving DecidableEq

/-- A run object as the Runner observes it: status, optional required
action, and `last_error` (read only when the status is `failed`). -/
structure Run where
  status : RunStatus
  requiredAction : Option RequiredAction := none
  lastError : String := ""
deriving DecidableEq

/-- Lines 112–118: the batch of approvals collected from a fetched run
(one `approve = true` record per `RequiredMcpToolCall`; other pending
calls are skipped). -/
def approvalsFor (r : Run) : List ToolApproval :=
  if r.status = .requiresAction then
    match r.requiredAction with
    | some (.submitToolApproval calls) =>
        calls.filterMap fun c =>
          match c with
          | .mcp id => some { toolCallId := id, approve := true }
          | .otherKind _ => none
    | _ => []
  else []

/-- Observable trace of one polling loop: how many times it slept, how
many times it re-fetched the run, and which approval batches it
submitted (line 119: a batch is submitted only when non-empty). -/
structure PollTrace where
  sleeps : Nat
  fetches : Nat
  approvalBatches : List (List ToolApproval)
deriving DecidableEq

/-- One loop iteration's effect on the trace: `time.sleep(1)` then one
`runs.get`, then possibly one `submit_tool_outputs` batch. -/
def PollTrace.step (tr : PollTrace) (r : Run) : PollTrace :=
  { sleeps := tr.sleeps + 1
    fetches := tr.fetches + 1
    approvalBatches :=
      tr.approvalBatches ++ (if (approvalsFor r).isEmpty then [] else [approvalsFor r]) }

/-- The polling loop of lines 107–125, driven by the scripted sequence
of runs the successive `runs.get` calls return.  `none` means the
script was exhausted while the status was still non-terminal (the real
loop would keep fetching). -/
def pollLoop : Run → List Run → PollTrace → Option (Run × PollTrace)
  | run, [], tr => if run.status ∈ pollSet then none else some (run, tr)
  | run, r :: rest, tr =>
      if run.status ∈ pollSet then pollLoop r rest (tr.step r)
      else some (run, tr)

/-- A message on the thread: its role and the `text.value` of each of
its `text_messages`. -/
structure ThreadMessage where
  role : String
  textMessages : List String
deriving DecidableEq

/-- Lines 132–137: the thread's messages arrive in ascending order, the
loop scans them from the most recent backward and takes the last text
segment of the first message with role `"assistant"` and a non-empty
`text_messages` list. -/
def lastAssistantText (messages : List ThreadMessage) : Option String :=
  (messages.reverse.find? fun m => m.role == "assistant" && !m.textMessages.isEmpty).bind
    fun m => m.textMessages.getLast?

/-- What one terminal run prints: the failure message if any, the
assistant reply if any, and whether the message/run-step listing calls
were made at all (they are skipped by the `continue` at line 129). -/
structure TurnOutcome where
  errorPrinted : Option String
  assistantPrinted : Option String
  listedMessages : Bool
deriving DecidableEq

/-- Lines 127–148: handling of the run once it left the polling set.
The reply is printed only when `last_assistant` is truthy (line 138),
i.e. found and non-empty. -/
def handleTerminal (run : Run) (messages : List ThreadMessage) : TurnOutcome :=
  if run.status = .failed then
    { errorPrinted := some run.lastError, assistantPrinted := none, listedMessages := false }
  else
    { errorPrinted := none
      assistantPrinted :=
        match lastAssistantText messages with
        | some s => if s == "" then none else some s
        | none => none
      listedMessages := true }

/-- One full request/response cycle after the message and run were
created: poll to a terminal status, then handle it. -/
def runTurn (firstRun : Run) (script : List Run) (messages : List ThreadMessage) :
    Option (PollTrace × TurnOutcome) :=
  (pollLoop firstRun script { sleeps := 0, fetches := 0, approvalBatches := [] }).map
    fun p => (p.2, handleTerminal p.1 messages)

/-! #### The outer input loop (lines 82–91) -/

/-- The quit commands, compared against the lowered input at line 90. -/
def quitCmds : List String := [":quit", ":q", ":exit"]

/-- What the top of the loop body decides to do with one input event. -/
inductive LineAction
  | quit
  | skip
  | send (msg : String)
deriving DecidableEq

/-- Lines 82–91: `input("> ").strip()` (with `EOFError`, modelled as
`none`, breaking the loop), then the blank-line `continue`, then the
case-insensitive quit check, and otherwise the stripped text is the
message sent. -/
def handleLine : Option String → LineAction
  | none => .quit
  | some raw =>
      let s := pyStrip raw
      if s == "" then .skip
      else if pyLower s ∈ quitCmds then .quit
      else .send s

/-- The observable result of one pass through the outer loop body. -/
structure StepResult where
  endsSession : Bool
  remoteCalls : Nat
  turn : Option (PollTrace × TurnOutcome)
deriving DecidableEq

/-- Remote API calls one completed turn makes: `messages.create` and
`runs.create`, one `runs.get` per fetch, one `submit_tool_outputs` per
batch, and `messages.list` plus `run_steps.list` unless the failed-run
`continue` skipped them. -/
def turnRemoteCalls (tr : PollTrace) (out : TurnOutcome) : Nat :=
  2 + tr.fetches + tr.approvalBatches.length + (if out.listedMessages then 2 else 0)

/-- One pass through the outer `while True` body for input event `ev`
(`none` is end-of-input): quit and blank lines make no remote calls;
otherwise a message is created and a run executed against the scripted
statuses.  `endsSession = false` means control returns to the prompt. -/
def sessionStep (ev : Option String) (firstRun : Run) (script : List Run)
    (messages : List ThreadMessage) : Option StepResult :=
  match handleLine ev with
  | .quit => some { endsSession := true, remoteCalls := 0, turn := none }
  | .skip => some { endsSession := false, remoteCalls := 0, turn := none }
  | .send _ =>
      (runTurn firstRun script messages).map fun p =>
        { endsSession := false, remoteCalls := turnRemoteCalls p.1 p.2, turn := some p }

/-- Lines 54–65 of `run-agent.py`: load the registry (fatal if absent
or unparsable), check the requested name (fatal if missing), check
`PROJECT_ENDPOINT` (fatal if unset/empty).  Only the `ok` value — the
agent identifier — flows on into client construction, the remote
`get_agent` call and the interactive session, so an `error` result
means the process exits with no remote call made and no session
begun. -/
def runAgentPrelude (name : String) (projectEndpoint : Option String)
    (file : RegistryFile) : Except String String := do
  let store ← load_store_runner file
  match store.lookup name with
  | none => .error ("Agent name " ++ name ++ " not found in .agents.json. Create it first.")
  | some agentId =>
      if !pyTruthy projectEndpoint then .error "PROJECT_ENDPOINT env var is required"
      else .ok agentId

/-! ### Helper lemmas -/

theorem lookup_cons_self {b : String} {es : Store} {a : String} :
    List.lookup a ((a, b) :: es) = some b := by
  rw [List.lookup_cons]
  simp

theorem lookup_cons_ne {b : String} {es : Store} {k a : String} (h : k ≠ a) :
    List.lookup k ((a, b) :: es) = List.lookup k es := by
  rw [List.lookup_cons]
  simp [beq_eq_false_iff_ne.mpr h]

theorem lookup_dictSet_self (s : Store) (k v : String) :
    List.lookup k (dictSet s k v) = some v := by
  induction s with
  | nil => simp [dictSet, lookup_cons_self]
  | cons p rest ih =>
      obtain ⟨a, b⟩ := p
      by_cases h : a = k
      · subst h
        simp [dictSet, lookup_cons_self]
      · simp only [dictSet, beq_eq_false_iff_ne.mpr h, Bool.false_eq_true, if_false]
        rw [lookup_cons_ne (Ne.symm h)]
        exact ih

theorem lookup_dictSet_ne (s : Store) (k v k' : String) (h : k' ≠ k) :
    List.lookup k' (dictSet s k v) = List.lookup k' s := by
  induction s with
  | nil => exact lookup_cons_ne h
  | cons p rest ih =>
      obtain ⟨a, b⟩ := p
      by_cases ha : a = k
      · subst ha
        simp only [dictSet, beq_self_eq_true, if_true]
        rw [lookup_cons_ne h, lookup_cons_ne h]
      · simp only [dictSet, beq_eq_false_iff_ne.mpr ha, Bool.false_eq_true, if_false]
        by_cases hka : k' = a
        · subst hka
          rw [lookup_cons_self, lookup_cons_self]
        · rw [lookup_cons_ne hka, lookup_cons_ne hka]
          exact ih

theorem lookup_eq_of_perm {l l' : Store} (h : l.Perm l')
    (hn : (l.map Prod.fst).Nodup) (k : String) :
    List.lookup k l = List.lookup k l' := by
  induction h with
  | nil => rfl
  | cons x h ih =>
      obtain ⟨a, b⟩ := x
      simp only [List.map_cons, List.nodup_cons] at hn
      by_cases hka : k = a
      · subst hka
        rw [lookup_cons_self, lookup_cons_self]
      · rw [lookup_cons_ne hka, lookup_cons_ne hka]
        exact ih hn.2
  | swap x y l =>
      obtain ⟨a, b⟩ := x
      obtain ⟨c, d⟩ := y
      simp only [List.map_cons, List.nodup_cons, List.mem_cons] at hn
      have hac : c ≠ a := fun habs => hn.1 (Or.inl habs)
      by_cases hka : k = a
      · subst hka
        rw [lookup_cons_ne (fun habs => hac habs.symm), lookup_cons_self,
          lookup_cons_self]
      · by_cases hkc : k = c
        · subst hkc
          rw [lookup_cons_self, lookup_cons_ne hka, lookup_cons_self]
        · rw [lookup_cons_ne hkc, lookup_cons_ne hka, lookup_cons_ne hka,
            lookup_cons_ne hkc]
  | trans h1 h2 ih1 ih2 =>
      have hn2 := (h1.map Prod.fst).nodup_iff.mp hn
      exact (ih1 hn).trans (ih2 hn2)

theorem sortPairs_perm (s : Store) : (sortPairs s).Perm s :=
  List.perm_insertionSort keyLe s

theorem sorted_keyLt_of_nodup {l : Store} (hs : l.Sorted keyLe)
    (hn : (l.map Prod.fst).Nodup) : l.Sorted keyLt := by
  have hpair : l.Pairwise fun a b => a.1 ≠ b.1 := List.pairwise_map.mp hn
  exact List.Pairwise.imp₂ (fun _ _ hle hne => lt_of_le_of_ne hle hne) hs hpair

theorem sortPairs_eq_of_perm {s s' : Store} (hp : s.Perm s')
    (hn : (s.map Prod.fst).Nodup) : sortPairs s = sortPairs s' := by
  have hn' : (s'.map Prod.fst).Nodup := ((hp.map Prod.fst).nodup_iff).mp hn
  have hns : ((sortPairs s).map Prod.fst).Nodup :=
    (((sortPairs_perm s).map Prod.fst).nodup_iff).mpr hn
  have hns' : ((sortPairs s').map Prod.fst).Nodup :=
    (((sortPairs_perm s').map Prod.fst).nodup_iff).mpr hn'
  have hperm : (sortPairs s).Perm (sortPairs s') :=
    ((sortPairs_perm s).trans hp).trans (sortPairs_perm s').symm
  exact List.eq_of_perm_of_sorted hperm
    (sorted_keyLt_of_nodup (List.sorted_insertionSort keyLe s) hns)
    (sorted_keyLt_of_nodup (List.sorted_insertionSort keyLe s') hns')

theorem dropWhile_rdropWhile_self (p : Char → Bool) (m : List Char)
    (hm : List.dropWhile p m = m) :
    List.dropWhile p (List.rdropWhile p m) = List.rdropWhile p m := by
  obtain ⟨t, ht⟩ := List.rdropWhile_prefix p m
  cases hu : List.rdropWhile p m with
  | nil => simp
  | cons a u =>
      have hma : m = a :: (u ++ t) := by rw [← ht, hu]; simp
      have hpa : p a = false := by
        cases hcs : p a with
        | false => rfl
        | true =>
            rw [hma, List.dropWhile_cons, hcs] at hm
            simp only [if_true] at hm
            have hlen := congrArg List.length hm
            have hle := (List.dropWhile_suffix (l := u ++ t) p).length_le
            simp only [List.length_cons] at hlen
            omega
      rw [List.dropWhile_cons, hpa]
      simp

theorem charStrip_idem (l : List Char) : charStrip (charStrip l) = charStrip l := by
  unfold charStrip
  rw [dropWhile_rdropWhile_self isPySpace (List.dropWhile isPySpace l)
      (List.dropWhile_idempotent isPySpace l),
    List.rdropWhile_idempotent]

theorem pyStrip_idem (s : String) : pyStrip (pyStrip s) = pyStrip s := by
  unfold pyStrip
  exact congrArg String.mk (charStrip_idem s.data)

theorem pyStrip_eq_empty {s : String} (h : ∀ c ∈ s.data, isPySpace c = true) :
    pyStrip s = "" := by
  unfold pyStrip charStrip
  rw [List.dropWhile_eq_nil_iff.mpr h, List.rdropWhile_nil]

theorem find?_append_left_none {α : Type} (p : α → Bool) (l₁ l₂ : List α)
    (h : ∀ x ∈ l₁, ¬p x = true) :
    List.find? p (l₁ ++ l₂) = List.find? p l₂ := by
  induction l₁ with
  | nil => rfl
  | cons a l ih =>
      have hpa : p a = false := by
        have := h a (by simp)
        cases hcs : p a with
        | false => rfl
        | true => exact absurd hcs this
      rw [List.cons_append, List.find?_cons, hpa]
      exact ih fun x hx => h x (by simp [hx])

theorem lastAssistantText_append (l₁ l₂ : List ThreadMessage) (m : ThreadMessage)
    (hrole : m.role = "assistant") (hseg : m.textMessages ≠ [])
    (hafter : ∀ m' ∈ l₂, ¬(m'.role = "assistant" ∧ m'.textMessages ≠ [])) :
    lastAssistantText (l₁ ++ m :: l₂) = m.textMessages.getLast? := by
  unfold lastAssistantText
  have hrev : (l₁ ++ m :: l₂).reverse = l₂.reverse ++ (m :: l₁.reverse) := by
    simp
  rw [hrev, find?_append_left_none]
  · have hp : (m.role == "assistant" && !m.textMessages.isEmpty) = true := by
      simp [hrole, List.isEmpty_iff, hseg]
    simp [List.find?_cons, hp]
  · intro x hx
    have hx' := hafter x (by simpa using hx)
    intro hcontra
    apply hx'
    simp only [Bool.and_eq_true, beq_iff_eq, Bool.not_eq_true'] at hcontra
    refine ⟨hcontra.1, fun hnil => ?_⟩
    rw [hnil] at hcontra
    simp at hcontra

theorem pollLoop_terminal {run : Run} (h : run.status ∉ pollSet)
    (script : List Run) (tr : PollTrace) :
    pollLoop run script tr = some (run, tr) := by
  cases script <;> simp [pollLoop, h]

/-! ### Claims -/

/-- C2: on success the Provisioner writes back a mapping in which the
provisioned name is bound to the newly returned identifier, every other
key's binding is exactly what was loaded, and an absent or unparsable
registry file is loaded as the empty mapping. -/
theorem c2_provision_frame (file : RegistryFile) (name id k : String)
    (hk : k ≠ name) :
    List.lookup name (storeAgent file name id) = some id ∧
    List.lookup k (storeAgent file name id) = List.lookup k (load_store file) ∧
    load_store .absent = [] ∧ (∀ exc, load_store (.unparsable exc) = []) :=
  ⟨lookup_dictSet_self _ _ _, lookup_dictSet_ne _ _ _ _ hk, rfl, fun _ => rfl⟩

theorem c2_provision_frame_witness :
    ("b" : String) ≠ "a" ∧
    (List.lookup "a" (storeAgent (.parsed [("a", "old"), ("b", "2")]) "a" "new") = some "new" ∧
     List.lookup "b" (storeAgent (.parsed [("a", "old"), ("b", "2")]) "a" "new") =
       List.lookup "b" (load_store (.parsed [("a", "old"), ("b", "2")])) ∧
     load_store .absent = [] ∧ (∀ exc, load_store (.unparsable exc) = [])) :=
  ⟨by decide, c2_provision_frame (.parsed [("a", "old"), ("b", "2")]) "a" "new" "b" (by decide)⟩

/-- C3: saving a non-empty string-to-string mapping and loading it back
yields an identical mapping (same binding for every key, and still
non-empty). -/
theorem c3_registry_roundtrip (s : Store) (hne : s ≠ [])
    (hn : (s.map Prod.fst).Nodup) :
    load_store (fileAfterSave s) ≠ [] ∧
    ∀ k, List.lookup k (load_store (fileAfterSave s)) = List.lookup k s := by
  constructor
  · intro habs
    apply hne
    have hlen := (sortPairs_perm s).length_eq
    rw [show load_store (fileAfterSave s) = sortPairs s from rfl] at habs
    rw [habs] at hlen
    exact List.length_eq_zero.mp hlen.symm
  · intro k
    have hns : ((sortPairs s).map Prod.fst).Nodup :=
      (((sortPairs_perm s).map Prod.fst).nodup_iff).mpr hn
    exact lookup_eq_of_perm (sortPairs_perm s) hns k

theorem c3_registry_roundtrip_witness :
    ([("b", "2"), ("a", "1")] : Store) ≠ [] ∧
    (([("b", "2"), ("a", "1")] : Store).map Prod.fst).Nodup ∧
    (load_store (fileAfterSave [("b", "2"), ("a", "1")]) ≠ [] ∧
     ∀ k, List.lookup k (load_store (fileAfterSave [("b", "2"), ("a", "1")])) =
       List.lookup k [("b", "2"), ("a", "1")]) :=
  ⟨by decide, by decide, c3_registry_roundtrip [("b", "2"), ("a", "1")] (by decide) (by decide)⟩

/-- C9: the registry is serialized with its keys in sorted order, every
entry line is indented by two spaces, and equal mappings (permutations
of the same duplicate-free entries) serialize to the same text, so the
same file contents. -/
theorem c9_dumps_deterministic (s s' : Store) (hn : (s.map Prod.fst).Nodup)
    (hp : s.Perm s') :
    List.Sorted (· ≤ ·) ((sortPairs s).map Prod.fst) ∧
    (∀ p ∈ sortPairs s, ∃ t, dumpsEntry p = "  " ++ t) ∧
    dumps s = dumps s' ∧ fileAfterSave s = fileAfterSave s' := by
  refine ⟨?_, ?_, ?_, ?_⟩
  · have hs := List.sorted_insertionSort keyLe s
    exact List.pairwise_map.mpr hs
  · intro p _
    refine ⟨jsonQuote p.1 ++ ": " ++ jsonQuote p.2, ?_⟩
    simp [dumpsEntry, String.append_assoc]
  · unfold dumps
    rw [sortPairs_eq_of_perm hp hn]
  · unfold fileAfterSave
    rw [sortPairs_eq_of_perm hp hn]

theorem c9_dumps_deterministic_witness :
    (([("b", "2"), ("a", "1")] : Store).map Prod.fst).Nodup ∧
    ([("b", "2"), ("a", "1")] : Store).Perm [("a", "1"), ("b", "2")] ∧
    (List.Sorted (· ≤ ·) ((sortPairs [("b", "2"), ("a", "1")]).map Prod.fst) ∧
     (∀ p ∈ sortPairs [("b", "2"), ("a", "1")], ∃ t, dumpsEntry p = "  " ++ t) ∧
     dumps [("b", "2"), ("a", "1")] = dumps [("a", "1"), ("b", "2")] ∧
     fileAfterSave [("b", "2"), ("a", "1")] = fileAfterSave [("a", "1"), ("b", "2")]) :=
  ⟨by decide, List.Perm.swap _ _ _,
   c9_dumps_deterministic [("b", "2"), ("a", "1")] [("a", "1"), ("b", "2")]
     (by decide) (List.Perm.swap _ _ _)⟩

/-- C7: end-of-input ends the session with no remote calls; a line that
strips to blank makes no remote calls and returns to the prompt; a line
whose stripped, lowered text is `:quit`, `:q` or `:exit` ends the
session with no remote calls. -/
theorem c7_quit_blank_eof (firstRun : Run) (script : List Run)
    (msgs : List ThreadMessage) :
    sessionStep none firstRun script msgs =
      some { endsSession := true, remoteCalls := 0, turn := none } ∧
    (∀ s : String, pyStrip s = "" →
      sessionStep (some s) firstRun script msgs =
        some { endsSession := false, remoteCalls := 0, turn := none }) ∧
    (∀ s : String, pyLower (pyStrip s) ∈ quitCmds →
      sessionStep (some s) firstRun script msgs =
        some { endsSession := true, remoteCalls := 0, turn := none }) := by
  refine ⟨rfl, ?_, ?_⟩
  · intro s hs
    simp [sessionStep, handleLine, hs]
  · intro s hs
    have hne : ¬(pyStrip s = "") := by
      intro habs
      rw [habs] at hs
      exact absurd hs (by decide)
    simp [sessionStep, handleLine, hne, hs]

theorem c7_quit_blank_eof_witness :
    pyStrip "   " = "" ∧ pyLower (pyStrip "  :Quit ") ∈ quitCmds ∧
    pyLower (pyStrip ":q") ∈ quitCmds ∧ pyLower (pyStrip ":EXIT") ∈ quitCmds ∧
    (sessionStep none { status := .queued, requiredAction := none, lastError := "" } [] [] =
      some { endsSession := true, remoteCalls := 0, turn := none }) ∧
    (sessionStep (some "   ") { status := .queued, requiredAction := none, lastError := "" } [] [] =
      some { endsSession := false, remoteCalls := 0, turn := none }) ∧
    (sessionStep (some "  :Quit ") { status := .queued, requiredAction := none, lastError := "" } [] [] =
      some { endsSession := true, remoteCalls := 0, turn := none }) ∧
    (sessionStep (some ":q") { status := .queued, requiredAction := none, lastError := "" } [] [] =
      some { endsSession := true, remoteCalls := 0, turn := none }) ∧
    (sessionStep (some ":EXIT") { status := .queued, requiredAction := none, lastError := "" } [] [] =
      some { endsSession := true, remoteCalls := 0, turn := none }) :=
  ⟨by decide, by decide, by decide, by decide,
   (c7_quit_blank_eof _ [] []).1,
   (c7_quit_blank_eof _ [] []).2.1 "   " (by decide),
   (c7_quit_blank_eof _ [] []).2.2 "  :Quit " (by decide),
   (c7_quit_blank_eof _ [] []).2.2 ":q" (by decide),
   (c7_quit_blank_eof _ [] []).2.2 ":EXIT" (by decide)⟩

/-- C10: the Runner strips the input line before any other processing —
processing a line is the same as processing its stripped form, a
whitespace-only line is treated as blank, and a quit command surrounded
by whitespace quits like the bare command. -/
theorem c10_strip_before_processing (s : String) :
    handleLine (some s) = handleLine (some (pyStrip s)) ∧
    ((∀ c ∈ s.data, isPySpace c = true) → handleLine (some s) = .skip) ∧
    handleLine (some "  :QUIT  ") = .quit ∧ handleLine (some ":quit") = .quit := by
  refine ⟨?_, ?_, by decide, by decide⟩
  · simp only [handleLine, pyStrip_idem]
  · intro h
    simp [handleLine, pyStrip_eq_empty h]

theorem c10_strip_before_processing_witness :
    (∀ c ∈ (" \t " : String).data, isPySpace c = true) ∧
    (handleLine (some " \t ") = handleLine (some (pyStrip " \t ")) ∧
     ((∀ c ∈ (" \t " : String).data, isPySpace c = true) →
       handleLine (some " \t ") = .skip) ∧
     handleLine (some "  :QUIT  ") = .quit ∧ handleLine (some ":quit") = .quit) :=
  ⟨by decide, c10_strip_before_processing " \t "⟩

/-- C1: against the scripted status sequence queued, in-progress,
requires-action (one pending MCP tool call), completed — followed by
anything, which is never fetched — the loop sleeps once before each of
its three re-fetches, submits exactly one approval batch containing the
one `approve = true` record for the pending call, stops polling at
`completed`, and prints the final assistant text. -/
theorem c1_polling_termination (cid : String) (tail : List Run)
    (msgs : List ThreadMessage) (s : String)
    (hfind : lastAssistantText msgs = some s) (hne : s ≠ "") :
    runTurn { status := .queued, requiredAction := none, lastError := "" }
      ([{ status := .inProgress, requiredAction := none, lastError := "" },
        { status := .requiresAction,
          requiredAction := some (.submitToolApproval [.mcp cid]), lastError := "" },
        { status := .completed, requiredAction := none, lastError := "" }] ++ tail) msgs =
      some ({ sleeps := 3, fetches := 3,
              approvalBatches := [[{ toolCallId := cid, approve := true }]] },
            { errorPrinted := none, assistantPrinted := some s, listedMessages := true }) := by
  have hterm : ∀ tr : PollTrace,
      pollLoop { status := .completed, requiredAction := none, lastError := "" } tail tr =
        some ({ status := .completed, requiredAction := none, lastError := "" }, tr) :=
    fun tr => pollLoop_terminal (by decide) tail tr
  simp [runTurn, pollLoop, pollSet, PollTrace.step, approvalsFor, hterm,
    handleTerminal, hfind, hne]

theorem c1_polling_termination_witness :
    lastAssistantText [{ role := "assistant", textMessages := ["hi"] }] = some "hi" ∧
    ("hi" : String) ≠ "" ∧
    runTurn { status := .queued, requiredAction := none, lastError := "" }
      ([{ status := .inProgress, requiredAction := none, lastError := "" },
        { status := .requiresAction,
          requiredAction := some (.submitToolApproval [.mcp "call_1"]), lastError := "" },
        { status := .completed, requiredAction := none, lastError := "" }] ++ [])
      [{ role := "assistant", textMessages := ["hi"] }] =
      some ({ sleeps := 3, fetches := 3,
              approvalBatches := [[{ toolCallId := "call_1", approve := true }]] },
            { errorPrinted := none, assistantPrinted := some "hi", listedMessages := true }) :=
  ⟨by decide, by decide,
   c1_polling_termination "call_1" [] [{ role := "assistant", textMessages := ["hi"] }] "hi"
     (by decide) (by decide)⟩

/-- C4: on any turn whose run polls to the terminal status `failed`,
the Runner prints the run's `last_error`, prints no assistant reply,
skips the message listing, and returns to awaiting the next user input
(`endsSession = false`). -/
theorem c4_failed_run (input : String) (firstRun : Run) (script : List Run)
    (msgs : List ThreadMessage) (tr : PollTrace) (r : Run)
    (h1 : pyStrip input ≠ "") (h2 : pyLower (pyStrip input) ∉ quitCmds)
    (hpoll : pollLoop firstRun script { sleeps := 0, fetches := 0, approvalBatches := [] } =
      some (r, tr))
    (hfail : r.status = .failed) :
    sessionStep (some input) firstRun script msgs =
      some { endsSession := false,
             remoteCalls := 2 + tr.fetches + tr.approvalBatches.length,
             turn := some (tr, { errorPrinted := some r.lastError,
                                 assistantPrinted := none, listedMessages := false }) } := by
  simp [sessionStep, handleLine, h1, h2, runTurn, hpoll, handleTerminal, hfail,
    turnRemoteCalls]

theorem c4_failed_run_witness :
    pyStrip "hello" ≠ "" ∧ pyLower (pyStrip "hello") ∉ quitCmds ∧
    pollLoop { status := .queued, requiredAction := none, lastError := "" }
      [{ status := .failed, requiredAction := none, lastError := "boom" }]
      { sleeps := 0, fetches := 0, approvalBatches := [] } =
      some ({ status := .failed, requiredAction := none, lastError := "boom" },
            { sleeps := 1, fetches := 1, approvalBatches := [] }) ∧
    sessionStep (some "hello") { status := .queued, requiredAction := none, lastError := "" }
      [{ status := .failed, requiredAction := none, lastError := "boom" }] [] =
      some { endsSession := false, remoteCalls := 3,
             turn := some ({ sleeps := 1, fetches := 1, approvalBatches := [] },
                           { errorPrinted := some "boom", assistantPrinted := none,
                             listedMessages := false }) } :=
  ⟨by decide, by decide, by decide,
   c4_failed_run "hello" { status := .queued, requiredAction := none, lastError := "" }
     [{ status := .failed, requiredAction := none, lastError := "boom" }] []
     { sleeps := 1, fetches := 1, approvalBatches := [] }
     { status := .failed, requiredAction := none, lastError := "boom" }
     (by decide) (by decide) (by decide) rfl⟩

/-- C6 (counterexample): with the thread holding one assistant message
whose only text segment is the empty string, the scan selects that
message and its final segment `""`, yet nothing is printed — refuting
the claim that the final text segment is always printed. -/
theorem c6_counterexample :
    lastAssistantText [{ role := "assistant", textMessages := [""] }] = some "" ∧
    (handleTerminal { status := .completed, requiredAction := none, lastError := "" }
        [{ role := "assistant", textMessages := [""] }]).assistantPrinted = none := by
  constructor <;> decide

/-- C6 (amended): for a terminal non-failed run the Runner lists the
thread's messages, prints no error, selects the latest message with the
assistant role and at least one text segment (no later message
qualifies), and prints that message's final text segment exactly when
it is non-empty. -/
theorem c6_reply_selection (run : Run) (l₁ l₂ : List ThreadMessage)
    (m : ThreadMessage) (hterm : run.status ≠ .failed)
    (hrole : m.role = "assistant") (hseg : m.textMessages ≠ [])
    (hafter : ∀ m' ∈ l₂, ¬(m'.role = "assistant" ∧ m'.textMessages ≠ [])) :
    (handleTerminal run (l₁ ++ m :: l₂)).listedMessages = true ∧
    (handleTerminal run (l₁ ++ m :: l₂)).errorPrinted = none ∧
    ∃ s, m.textMessages.getLast? = some s ∧
      (handleTerminal run (l₁ ++ m :: l₂)).assistantPrinted =
        if s = "" then none else some s := by
  have hlast := lastAssistantText_append l₁ l₂ m hrole hseg hafter
  obtain ⟨s, hs⟩ := Option.isSome_iff_exists.mp (List.getLast?_isSome.mpr hseg)
  refine ⟨by simp [handleTerminal, hterm], by simp [handleTerminal, hterm], s, hs, ?_⟩
  by_cases hse : s = "" <;> simp [handleTerminal, hterm, hlast, hs, hse]

theorem c6_reply_selection_witness :
    ({ status := .completed, requiredAction := none, lastError := "" } : Run).status ≠ .failed ∧
    ({ role := "assistant", textMessages := ["a", "b"] } : ThreadMessage).role = "assistant" ∧
    ({ role := "assistant", textMessages := ["a", "b"] } : ThreadMessage).textMessages ≠ [] ∧
    (∀ m' ∈ [{ role := "user", textMessages := ["q"] }],
      ¬(ThreadMessage.role m' = "assistant" ∧ ThreadMessage.textMessages m' ≠ [])) ∧
    ((handleTerminal { status := .completed, requiredAction := none, lastError := "" }
        ([{ role := "user", textMessages := ["x"] }] ++
          { role := "assistant", textMessages := ["a", "b"] } ::
            [{ role := "user", textMessages := ["q"] }])).listedMessages = true ∧
     (handleTerminal { status := .completed, requiredAction := none, lastError := "" }
        ([{ role := "user", textMessages := ["x"] }] ++
          { role := "assistant", textMessages := ["a", "b"] } ::
            [{ role := "user", textMessages := ["q"] }])).errorPrinted = none ∧
     ∃ s, (["a", "b"] : List String).getLast? = some s ∧
       (handleTerminal { status := .completed, requiredAction := none, lastError := "" }
          ([{ role := "user", textMessages := ["x"] }] ++
            { role := "assistant", textMessages := ["a", "b"] } ::
              [{ role := "user", textMessages := ["q"] }])).assistantPrinted =
         if s = "" then none else some s) :=
  ⟨by decide, rfl, by decide, by decide,
   c6_reply_selection { status := .completed, requiredAction := none, lastError := "" }
     [{ role := "user", textMessages := ["x"] }]
     [{ role := "user", textMessages := ["q"] }]
     { role := "assistant", textMessages := ["a", "b"] }
     (by decide) rfl (by decide) (by decide)⟩

/-- C5: every missing required configuration value (model falsy from
both the flag and its environment fallback, endpoint variable falsy),
and for the Runner an absent or unparsable registry file, a name not in
the registry, or a falsy endpoint, produces the fatal `error` result —
the value carrying the remote request (Provisioner) or starting the
session (Runner) is never produced. -/
theorem c5_fatal_config_errors :
    (∀ (args : CreateArgs) (env : CreateEnv) (id : String) (file : RegistryFile),
      pyTruthy (pyOrOpt args.model env.modelDeploymentName) = false →
      ∃ msg, createAgentMain args env id file = .error msg) ∧
    (∀ (args : CreateArgs) (env : CreateEnv) (id : String) (file : RegistryFile),
      pyTruthy env.projectEndpoint = false →
      ∃ msg, createAgentMain args env id file = .error msg) ∧
    (∀ (name : String) (ep : Option String),
      ∃ msg, runAgentPrelude name ep .absent = .error msg) ∧
    (∀ (name : String) (ep : Option String) (exc : String),
      ∃ msg, runAgentPrelude name ep (.unparsable exc) = .error msg) ∧
    (∀ (name : String) (ep : Option String) (store : Store),
      store.lookup name = none →
      ∃ msg, runAgentPrelude name ep (.parsed store) = .error msg) ∧
    (∀ (name : String) (store : Store) (id : String),
      store.lookup name = some id → pyTruthy none = false →
      ∃ msg, runAgentPrelude name none (.parsed store) = .error msg) := by
  refine ⟨?_, ?_, ?_, ?_, ?_, ?_⟩
  · intro args env id file h
    exact ⟨"Model deployment name must be provided via --model or MODEL_DEPLOYMENT_NAME env var",
      by simp [createAgentMain, h]⟩
  · intro args env id file h
    by_cases hm : pyTruthy (pyOrOpt args.model env.modelDeploymentName) = false
    · exact ⟨"Model deployment name must be provided via --model or MODEL_DEPLOYMENT_NAME env var",
        by simp [createAgentMain, hm]⟩
    · rw [Bool.not_eq_false] at hm
      exact ⟨"PROJECT_ENDPOINT env var is required", by simp [createAgentMain, hm, h]⟩
  · intro name ep
    exact ⟨"Agent store .agents.json not found. Run create-agent.py first.", rfl⟩
  · intro name ep exc
    exact ⟨"Failed to read .agents.json: " ++ exc, rfl⟩
  · intro name ep store h
    exact ⟨"Agent name " ++ name ++ " not found in .agents.json. Create it first.",
      by simp [runAgentPrelude, load_store_runner, Except.bind, bind, h]⟩
  · intro name store id h _
    exact ⟨"PROJECT_ENDPOINT env var is required",
      by simp [runAgentPrelude, load_store_runner, Except.bind, bind, h, pyTruthy]⟩

theorem c5_fatal_config_errors_witness :
    (∃ msg, createAgentMain { name := "a", model := none, mcpUrl := "u", mcpLabel := "l" }
        { modelDeploymentName := some "", projectEndpoint := some "ep" } "id" .absent =
        .error msg) ∧
    (∃ msg, createAgentMain { name := "a", model := some "m", mcpUrl := "u", mcpLabel := "l" }
        { modelDeploymentName := none, projectEndpoint := none } "id" .absent =
        .error msg) ∧
    (∃ msg, runAgentPrelude "a" (some "ep") .absent = .error msg) ∧
    (∃ msg, runAgentPrelude "a" (some "ep") (.unparsable "bad json") = .error msg) ∧
    (∃ msg, runAgentPrelude "missing" (some "ep") (.parsed [("a", "1")]) = .error msg) ∧
    (∃ msg, runAgentPrelude "a" none (.parsed [("a", "1")]) = .error msg) :=
  ⟨c5_fatal_config_errors.1 _ _ "id" .absent (by decide),
   c5_fatal_config_errors.2.1 _ _ "id" .absent (by decide),
   c5_fatal_config_errors.2.2.1 "a" (some "ep"),
   c5_fatal_config_errors.2.2.2.1 "a" (some "ep") "bad json",
   c5_fatal_config_errors.2.2.2.2.1 "missing" (some "ep") [("a", "1")] (by decide),
   c5_fatal_config_errors.2.2.2.2.2 "a" [("a", "1")] "1" (by decide) (by decide)⟩

/-- C8 (counterexample): a successful provisioning run whose created
agent's instructions are the source's fixed prompt, which is not the
string the claim states. -/
theorem c8_counterexample :
    createAgentMain
      { name := "agent", model := some "gpt", mcpUrl := "https://mcp.example",
        mcpLabel := "tools" }
      { modelDeploymentName := none, projectEndpoint := some "https://endpoint" }
      "id-1" .absent =
      .ok ({ model := "gpt", name := "agent", instructions := agentInstructions,
             mcpTool := { serverLabel := "tools", serverUrl := "https://mcp.example" } },
           [("agent", "id-1")]) ∧
    agentInstructions ≠
      "You are a helpful agent that can use the available tools to answer questions and perform tasks" := by
  constructor
  · rfl
  · decide

/-- C8 (amended): every successful provisioning call builds the create
request with the fixed prompt "You are a helpful agent that can use MCP
tools to assist users. Use the available MCP tools to answer questions
and perform tasks." as its instructions, the resolved model, the given
name and the MCP tool descriptor, and writes the returned identifier
under the given name. -/
theorem c8_create_request (args : CreateArgs) (env : CreateEnv) (id : String)
    (file : RegistryFile) (req : CreateRequest) (written : Store)
    (h : createAgentMain args env id file = .ok (req, written)) :
    req.instructions = agentInstructions ∧
    req.name = args.name ∧
    req.model = (pyOrOpt args.model env.modelDeploymentName).getD "" ∧
    req.mcpTool = { serverLabel := args.mcpLabel, serverUrl := args.mcpUrl } ∧
    written = storeAgent file args.name id := by
  by_cases hm : pyTruthy (pyOrOpt args.model env.modelDeploymentName) = true
  · by_cases he : pyTruthy env.projectEndpoint = true
    · rw [createAgentMain] at h
      simp only [hm, he, Bool.not_true, Bool.false_eq_true, if_false, if_true,
        Except.ok.injEq, Prod.mk.injEq] at h
      obtain ⟨h1, h2⟩ := h
      exact ⟨by rw [← h1], by rw [← h1], by rw [← h1], by rw [← h1], h2.symm⟩
    · rw [Bool.not_eq_true] at he
      rw [createAgentMain] at h
      simp [hm, he] at h
  · rw [Bool.not_eq_true] at hm
    rw [createAgentMain] at h
    simp [hm] at h

theorem c8_create_request_witness :
    createAgentMain { name := "agent", model := none, mcpUrl := "u", mcpLabel := "l" }
        { modelDeploymentName := some "gpt", projectEndpoint := some "ep" } "id-2"
        (.parsed [("other", "1")]) =
      .ok ({ model := "gpt", name := "agent", instructions := agentInstructions,
             mcpTool := { serverLabel := "l", serverUrl := "u" } },
           [("other", "1"), ("agent", "id-2")]) ∧
    (({ model := "gpt", name := "agent", instructions := agentInstructions,
        mcpTool := { serverLabel := "l", serverUrl := "u" } } : CreateRequest).instructions =
        agentInstructions ∧
      ({ model := "gpt", name := "agent", instructions := agentInstructions,
         mcpTool := { serverLabel := "l", serverUrl := "u" } } : CreateRequest).name = "agent" ∧
      ({ model := "gpt", name := "agent", instructions := agentInstructions,
         mcpTool := { serverLabel := "l", serverUrl := "u" } } : CreateRequest).model =
        (pyOrOpt none (some "gpt")).getD "" ∧
      ({ model := "gpt", name := "agent", instructions := agentInstructions,
         mcpTool := { serverLabel := "l", serverUrl := "u" } } : CreateRequest).mcpTool =
        { serverLabel := "l", serverUrl := "u" } ∧
      ([("other", "1"), ("agent", "id-2")] : Store) =
        storeAgent (.parsed [("other", "1")]) "agent" "id-2") :=
  ⟨rfl,
   c8_create_request { name := "agent", model := none, mcpUrl := "u", mcpLabel := "l" }
     { modelDeploymentName := some "gpt", projectEndpoint := some "ep" } "id-2"
     (.parsed [("other", "1")]) _ _ rfl⟩

end FoundryAgent
